import Mathlib

/-!
Shallow embedding of the iOhouse climate data-update coordinator
(`coordinator.py`) and of the constants it uses (`const.py`).

Time is modelled by integers counting milliseconds (every float constant
of the code — 2.0 s TTL, 1.5 s debounce, the update intervals — is an
exact number of milliseconds, and the claims only compare times at these
boundaries), JSON scalars by `Value`,
Python dictionaries by association lists written and read through
`setA` / `lookupA` (dict assignment replaces the existing binding).
Network I/O is modelled by passing the response of each HTTP call as an
explicit argument (`NetResult`); raising `UpdateFailed` /
`ConfigEntryAuthFailed` is modelled by the `TickOutcome` constructors.
-/

namespace Iohouse

/-- JSON scalar values carried by the controller's responses.  Numbers
are fixed-point integers (e.g. tenths of a degree), an injective model of
the wire values: the coordinator only copies and compares them. -/
inductive Value where
  | str (s : String)
  | num (q : ℤ)
deriving DecidableEq

/-- A parsed JSON object: parameter name to value. -/
abbrev Params := List (String × Value)

/-- `_confirmed_cache` merged with `_cache_timestamps`: the code always
writes and deletes the two dicts in lockstep, so one map to
(value, timestamp) is faithful. -/
abbrev Cache := List (String × (Value × ℤ))

/-- Python dict assignment `m[k] = v`: replace the binding if present,
otherwise append it. -/
def setA {α : Type} : List (String × α) → String → α → List (String × α)
  | [], k, v => [(k, v)]
  | (k', v') :: rest, k, v =>
      if k' = k then (k, v) :: rest else (k', v') :: setA rest k v

/-- Python dict read `m.get(k)`. -/
def lookupA {α : Type} : List (String × α) → String → Option α
  | [], _ => none
  | (k', v) :: rest, k => if k' = k then some v else lookupA rest k

/-- Python `str.startswith`, on the underlying character lists. -/
def charsPrefixOf : List Char → List Char → Bool
  | [], _ => true
  | _ :: _, [] => false
  | c :: cs, d :: ds => if c = d then charsPrefixOf cs ds else false

/-- `key.startswith(prefixStr)`. -/
def strStartsWith (s p : String) : Bool := charsPrefixOf p.data s.data

/-- Python slicing `s[n:]`. -/
def strDrop (s : String) (n : ℕ) : String := ⟨s.data.drop n⟩

/-- `self._cache_ttl = 2.0` seconds, in milliseconds. -/
def CACHE_TTL : ℤ := 2000

/-- `self._command_debounce = 1.5` seconds, in milliseconds. -/
def COMMAND_DEBOUNCE : ℤ := 1500

/-- `DISCOVERY_INTERVAL = timedelta(minutes=5)`, in milliseconds. -/
def DISCOVERY_INTERVAL : ℤ := 300000

/-- `REGULAR_UPDATE_INTERVAL = timedelta(seconds=20)`, in milliseconds. -/
def REGULAR_UPDATE_INTERVAL : ℤ := 20000

/-- `ERROR_RETRY_DELAY = timedelta(seconds=60)`, in milliseconds. -/
def ERROR_RETRY_DELAY : ℤ := 60000

/-- `self._max_errors = 3`. -/
def MAX_ERRORS : ℕ := 3

/-- `DEFAULT_ZONES = ["a1", "a2", "b1", "b2"]`. -/
def DEFAULT_ZONES : List String := ["a1", "a2", "b1", "b2"]

/-- The dictionary returned by `_process_data_with_cache` and stored as
`self.data` by the update-coordinator framework. -/
structure Snapshot where
  zones : List (String × Params)
  common : Params
  activeZones : List String
  timestamp : ℤ
deriving DecidableEq

/-- The coordinator's mutable state. -/
structure Coord where
  activeZones : List String
  lastDiscovery : ℤ
  errorCount : ℕ
  fastMode : Bool
  fastModeUntil : ℤ
  updateInterval : ℤ
  cache : Cache
  lastCommands : List (String × ℤ)
  data : Option Snapshot
deriving DecidableEq

/-- The expired-entry sweep at the top of `_process_data_with_cache`:
the code deletes every entry with `now - timestamp > TTL`, i.e. keeps
exactly the entries with `now - timestamp ≤ TTL`. -/
def sweepCache (cache : Cache) (now : ℤ) : Cache :=
  cache.filter (fun e => decide (now - e.2.2 ≤ CACHE_TTL))

/-- The per-key merge: use the cached confirmed value if present and
fresh (`now - ts < TTL`), otherwise the polled value. -/
def resolveCached (cache : Cache) (key : String) (polled : Value) (now : ℤ) :
    Value :=
  match lookupA cache key with
  | some vt => if now - vt.2 < CACHE_TTL then vt.1 else polled
  | none => polled

/-- The zone-data loop of `_process_data_with_cache`: for each raw key
starting with `"<zone>_"`, the parameter name is `key[3:]` and the cache
key is `f"{zone}_{param_name}"`. -/
def buildZoneData (cache : Cache) (raw : Params) (zone : String) (now : ℤ) :
    Params :=
  raw.foldl
    (fun zd kv =>
      if strStartsWith kv.1 (zone ++ "_") then
        setA zd (strDrop kv.1 3)
          (resolveCached cache (zone ++ "_" ++ strDrop kv.1 3) kv.2 now)
      else zd)
    []

/-- `common_keys` from `_process_data_with_cache`. -/
def commonKeys : List String :=
  ["summermode", "avalible_update", "fWversion", "u_version",
   "out1", "out2", "out3", "out4", "out5", "out6", "out7", "out8"]

/-- The common-data loop of `_process_data_with_cache`. -/
def buildCommon (cache : Cache) (raw : Params) (now : ℤ) : Params :=
  commonKeys.foldl
    (fun cm key =>
      match lookupA raw key with
      | some v => setA cm key (resolveCached cache key v now)
      | none => cm)
    []

/-- `_process_data_with_cache`: sweep the cache, build the zone and
common maps through it, reset the error counter, restore the regular
update interval, and clear an elapsed fast mode. -/
def processDataWithCache (raw : Params) (zonesToProcess : List String)
    (now : ℤ) (st : Coord) : Snapshot × Coord :=
  let cache' := sweepCache st.cache now
  let zonePairs := zonesToProcess.foldl
    (fun acc zone =>
      let zd := buildZoneData cache' raw zone now
      if zd = [] then acc else acc ++ [(zone, zd)])
    []
  let snap : Snapshot :=
    { zones := zonePairs, common := buildCommon cache' raw now,
      activeZones := zonePairs.map Prod.fst, timestamp := now }
  let fm := if st.fastMode && decide (st.fastModeUntil < now) then false
            else st.fastMode
  (snap,
   { st with cache := cache', errorCount := 0,
             updateInterval := REGULAR_UPDATE_INTERVAL, fastMode := fm })

/-- The outcome of one HTTP poll call, as the coordinator sees it. -/
inductive NetResult where
  | transportError
  | http (status : ℕ) (body : Params)
deriving DecidableEq

/-- What `_discovery_phase` / `_regular_update_phase` do with a response:
401 raises `ConfigEntryAuthFailed`, any other non-200 status and any
transport error/timeout raise `UpdateFailed`, and a 200 body is handed to
`_process_data_with_cache` over the given zone set. -/
inductive PhaseResult where
  | ok (snap : Snapshot) (st : Coord)
  | authFailed
  | failed
deriving DecidableEq

def pollPhase (resp : NetResult) (zones : List String) (now : ℤ)
    (st : Coord) : PhaseResult :=
  match resp with
  | .transportError => .failed
  | .http status body =>
      if status = 401 then .authFailed
      else if status ≠ 200 then .failed
      else
        let ps := processDataWithCache body zones now st
        .ok ps.1 ps.2

/-- What `_async_update_data` lets escape to the scheduler framework. -/
inductive TickOutcome where
  | ok (snap : Snapshot)
  | updateFailed
  | authFailed
deriving DecidableEq

/-- Which request a tick sent: a discovery request always queries
`DEFAULT_ZONES` plus the common block; a regular request queries the
listed active zones. -/
inductive Req where
  | discovery
  | regular (zones : List String)
deriving DecidableEq

/-- One scheduler tick: outcome, post state, `zones_changed` event
payloads fired on the bus, and the requests issued in order. -/
structure TickResult where
  outcome : TickOutcome
  st : Coord
  events : List (List String)
  reqs : List Req
deriving DecidableEq

/-- Python set inequality `new_active_zones != self.active_zones`,
on lists read as sets. -/
def setEqL (a b : List String) : Bool :=
  a.all (fun x => b.contains x) && b.all (fun x => a.contains x)

/-- The `except Exception` arm of `_async_update_data`: bump the error
counter; at `_max_errors` switch the interval to `ERROR_RETRY_DELAY` and
immediately attempt one recovery discovery poll (its own failure — even a
401 — is swallowed by `except Exception: pass`); otherwise, and when the
recovery poll also fails, raise `UpdateFailed`. -/
def failTick (st : Coord) (now : ℤ) (resp2 : NetResult) (reqs : List Req) :
    TickResult :=
  if MAX_ERRORS ≤ st.errorCount + 1 then
    match pollPhase resp2 DEFAULT_ZONES now
        { st with errorCount := st.errorCount + 1,
                  updateInterval := ERROR_RETRY_DELAY } with
    | .ok snap st3 =>
        ⟨.ok snap, { st3 with data := some snap }, [], reqs ++ [.discovery]⟩
    | _ =>
        ⟨.updateFailed,
         { st with errorCount := st.errorCount + 1,
                   updateInterval := ERROR_RETRY_DELAY },
         [], reqs ++ [.discovery]⟩
  else ⟨.updateFailed, { st with errorCount := st.errorCount + 1 }, [], reqs⟩

/-- `_async_update_data`.  `resp1` answers the tick's first poll,
`resp2` answers the recovery discovery poll when it happens.  On a
successful return the framework stores the snapshot in `self.data`. -/
def tick (st : Coord) (now : ℤ) (resp1 resp2 : NetResult) : TickResult :=
  if now - st.lastDiscovery > DISCOVERY_INTERVAL then
    match pollPhase resp1 DEFAULT_ZONES now st with
    | .authFailed => ⟨.authFailed, st, [], [.discovery]⟩
    | .failed => failTick st now resp2 [.discovery]
    | .ok snap st' =>
        if setEqL (snap.zones.map Prod.fst) st'.activeZones then
          ⟨.ok snap, { st' with lastDiscovery := now, data := some snap }, [],
           [.discovery]⟩
        else
          ⟨.ok snap,
           { st' with lastDiscovery := now,
                      activeZones := snap.zones.map Prod.fst,
                      data := some snap },
           [snap.zones.map Prod.fst], [.discovery]⟩
  else
    match pollPhase resp1
        (if st.activeZones = [] then DEFAULT_ZONES else st.activeZones)
        now st with
    | .authFailed =>
        ⟨.authFailed, st, [],
         [if st.activeZones = [] then Req.discovery
          else Req.regular st.activeZones]⟩
    | .failed =>
        failTick st now resp2
          [if st.activeZones = [] then Req.discovery
           else Req.regular st.activeZones]
    | .ok snap st' =>
        ⟨.ok snap, { st' with data := some snap }, [],
         [if st.activeZones = [] then Req.discovery
          else Req.regular st.activeZones]⟩

/-- The two success spellings accepted from a command response. -/
def okStatuses : List Value := [Value.str "ok", Value.str "ок"]

/-- The duplicate-command guard at the top of `send_command`. -/
def isDebounced (st : Coord) (now : ℤ) (cmd : String) : Bool :=
  match lookupA st.lastCommands cmd with
  | some ts => decide (now - ts < COMMAND_DEBOUNCE)
  | none => false

/-- `_apply_confirmed_values`: write every non-`status` key of the
response into the confirmed cache with the send timestamp. -/
def applyConfirmedValues (body : Params) (ts : ℤ) (cache : Cache) : Cache :=
  body.foldl
    (fun c kv => if kv.1 = "status" then c else setA c kv.1 (kv.2, ts))
    cache

/-- `_trigger_immediate_update`: when a poll snapshot exists, overwrite
its already-present zone and common parameters with still-fresh cache
entries and notify listeners; with no snapshot, do nothing. The returned
flag records whether listeners were notified. -/
def triggerImmediateUpdate (st : Coord) (now : ℤ) : Coord × Bool :=
  match st.data with
  | none => (st, false)
  | some snap =>
      let zones' := snap.zones.map (fun zzd =>
        (zzd.1, zzd.2.map (fun pv =>
          match lookupA st.cache (zzd.1 ++ "_" ++ pv.1) with
          | some vt => if now - vt.2 < CACHE_TTL then (pv.1, vt.1) else pv
          | none => pv)))
      let common' := snap.common.map (fun kv =>
        match lookupA st.cache kv.1 with
        | some vt => if now - vt.2 < CACHE_TTL then (kv.1, vt.1) else kv
        | none => kv)
      ({ st with data := some { snap with zones := zones', common := common' } },
       true)

/-- The observable result of one `send_command` call.  `networkCalled`
records whether the HTTP GET was issued, `notified` whether listeners
were notified by the immediate update. -/
structure SendResult where
  ok : Bool
  st : Coord
  networkCalled : Bool
  notified : Bool
deriving DecidableEq

/-- `send_command`.  The function is total: every failure of the real
code (timeout, transport error, non-200, rejection) is returned as
`ok = false`, mirroring its catch-all `except` clause. -/
def sendCommand (st : Coord) (now : ℤ) (cmd : String) (resp : NetResult) :
    SendResult :=
  if isDebounced st now cmd then ⟨true, st, false, false⟩
  else
    let st1 := { st with lastCommands := setA st.lastCommands cmd now }
    match resp with
    | .transportError => ⟨false, st1, true, false⟩
    | .http status body =>
        if status = 401 then ⟨false, st1, true, false⟩
        else if status ≠ 200 then ⟨false, st1, true, false⟩
        else
          match lookupA body "status" with
          | some v =>
              if okStatuses.contains v then
                let st2 :=
                  { st1 with cache := applyConfirmedValues body now st1.cache }
                let tr := triggerImmediateUpdate st2 now
                ⟨true, tr.1, true, tr.2⟩
              else ⟨false, st1, true, false⟩
          | none => ⟨false, st1, true, false⟩

/-- `create_common_freeze`: a direct cache write, outside any command
response. -/
def createCommonFreeze (st : Coord) (param : String) (v : Value) (now : ℤ) :
    Coord :=
  { st with cache := setA st.cache param (v, now) }

/-- The allow-list of `_delayed_refresh_zone_data`. -/
def importantParams : List String :=
  ["target_temp", "power_state", "away_mode", "nightmode", "eco_mode",
   "temperature"]

/-- The cache-refresh loop of `_delayed_refresh_zone_data`: for each
polled key of an affected zone whose `key[3:]` suffix is in the
allow-list, write the polled value into the confirmed cache under the
raw key; also collect the keys written. -/
def delayedRefreshCache (zones : List String) (fresh : Params) (now : ℤ)
    (cache : Cache) : Cache × List String :=
  zones.foldl
    (fun acc zone =>
      fresh.foldl
        (fun acc2 kv =>
          if strStartsWith kv.1 (zone ++ "_") then
            if importantParams.contains (strDrop kv.1 3) then
              (setA acc2.1 kv.1 (kv.2, now), acc2.2 ++ [kv.1])
            else acc2
          else acc2)
        acc)
    (cache, [])

/-- `_delayed_refresh_zone_data` after its sleep: on a 200 response,
refresh the cache from the polled data and, when anything was written,
run the immediate update; every error is swallowed. -/
def delayedRefreshZoneData (zones : List String) (resp : NetResult)
    (now : ℤ) (st : Coord) : Coord × Bool :=
  match resp with
  | .http 200 fresh =>
      let cu := delayedRefreshCache zones fresh now st.cache
      let st1 := { st with cache := cu.1 }
      if cu.2 = [] then (st1, false)
      else
        let tr := triggerImmediateUpdate st1 now
        (tr.1, tr.2)
  | _ => (st, false)

/-- Facade read `get_zone_data`. -/
def getZoneData (st : Coord) (zone : String) : Params :=
  match st.data with
  | none => []
  | some snap => (lookupA snap.zones zone).getD []

/-- Facade read `get_common_data`. -/
def getCommonData (st : Coord) : Params :=
  match st.data with
  | none => []
  | some snap => snap.common

/-- A poll response that `_discovery_phase` / `_regular_update_phase`
turn into a recoverable failure (counted, non-auth). -/
def pollFails (r : NetResult) : Bool :=
  match r with
  | .transportError => true
  | .http s _ => decide (s ≠ 200) && decide (s ≠ 401)

/-- A response on which the recovery discovery of the error path fails
(its 401 is swallowed, so everything non-200 fails it). -/
def recoverFails (r : NetResult) : Bool :=
  match r with
  | .transportError => true
  | .http s _ => decide (s ≠ 200)

/-- A command response that `send_command` reports as success. -/
def cmdRespOk (r : NetResult) : Bool :=
  match r with
  | .http 200 body =>
      match lookupA body "status" with
      | some v => okStatuses.contains v
      | none => false
  | _ => false

/-- A coordinator fresh out of `__init__` with no configured zones. -/
def emptyCoord : Coord :=
  { activeZones := [], lastDiscovery := 0, errorCount := 0, fastMode := false,
    fastModeUntil := 0, updateInterval := REGULAR_UPDATE_INTERVAL,
    cache := [], lastCommands := [], data := none }


/-! ### Helper lemmas shared by the claim theorems -/

theorem lookupA_setA_self {α : Type} (m : List (String × α)) (k : String) (v : α) :
    lookupA (setA m k v) k = some v := by
  induction m with
  | nil => simp [setA, lookupA]
  | cons hd tl ih =>
      obtain ⟨k', v'⟩ := hd
      by_cases h : k' = k
      · subst h; simp [setA, lookupA]
      · simp [setA, lookupA, h, ih]

theorem strData_append (s t : String) : (s ++ t).data = s.data ++ t.data := by
  cases s; cases t; rfl

theorem charsPrefixOf_append (l r : List Char) : charsPrefixOf l (l ++ r) = true := by
  induction l with
  | nil => rfl
  | cons c cs ih => simp [charsPrefixOf, ih]

theorem startsWith_key (zone p : String) :
    strStartsWith (zone ++ "_" ++ p) (zone ++ "_") = true := by
  unfold strStartsWith
  rw [strData_append]
  exact charsPrefixOf_append _ _

theorem strDrop_key (zone p : String) (h : zone.length = 2) :
    strDrop (zone ++ "_" ++ p) 3 = p := by
  have h2 : zone.data.length = 2 := h
  have hu : "_".data = ['_'] := rfl
  have hd : (zone ++ "_" ++ p).data = (zone.data ++ ['_']) ++ p.data := by
    rw [strData_append, strData_append, hu]
  have h3 : (zone.data ++ ['_']).length = 3 := by simp [h2]
  unfold strDrop
  rw [hd, ← h3, List.drop_left]

theorem strDrop_key_ne (zone p : String) (h : zone.length ≠ 2) (hp : p ≠ "") :
    strDrop (zone ++ "_" ++ p) 3 ≠ p := by
  intro he
  have hu : "_".data = ['_'] := rfl
  have hd : (zone ++ "_" ++ p).data = (zone.data ++ ['_']) ++ p.data := by
    rw [strData_append, strData_append, hu]
  have hpd : p.data ≠ [] := by
    intro h0
    apply hp
    have hmk : p = (⟨p.data⟩ : String) := rfl
    rw [hmk, h0]
  have hlen : ((zone ++ "_" ++ p).data.drop 3).length = p.data.length :=
    congrArg String.length he
  rw [hd] at hlen
  have hlen2 : zone.length + (p.length + 1) - 3 = p.length := by
    simpa [List.length_drop, List.length_append] using hlen
  have hp1 : 0 < p.length := List.length_pos.mpr hpd
  omega

theorem cacheKey_ne (zone p : String) (h : strDrop (zone ++ "_" ++ p) 3 ≠ p) :
    zone ++ "_" ++ strDrop (zone ++ "_" ++ p) 3 ≠ zone ++ "_" ++ p := by
  intro he
  apply h
  have hd := congrArg String.data he
  rw [strData_append, strData_append] at hd
  have hcancel := List.append_cancel_left hd
  cases hq : strDrop (zone ++ "_" ++ p) 3
  cases p
  simp_all

theorem key_ne_status (zone p : String) (h : zone.length = 2) :
    zone ++ "_" ++ p ≠ "status" := by
  intro he
  have hd := congrArg String.data he
  rw [strData_append, strData_append] at hd
  have h2 : zone.data.length = 2 := h
  obtain ⟨a, b, hab⟩ := List.length_eq_two.mp h2
  have hu : "_".data = ['_'] := rfl
  have hs : "status".data = ['s', 't', 'a', 't', 'u', 's'] := rfl
  rw [hab, hu, hs] at hd
  simp at hd

theorem mem_sweepCache {e : String × (Value × ℤ)} {c : Cache} {now : ℤ}
    (h : e ∈ sweepCache c now) : e ∈ c :=
  (List.mem_filter.mp h).1

theorem pollPhase_ok_cache {r : NetResult} {zs : List String} {now : ℤ}
    {st : Coord} {snap : Snapshot} {st' : Coord}
    (h : pollPhase r zs now st = .ok snap st') :
    st'.cache = sweepCache st.cache now := by
  cases r with
  | transportError => simp [pollPhase] at h
  | http s body =>
      by_cases h4 : s = 401
      · simp [pollPhase, h4] at h
      · by_cases h2 : s = 200
        · subst h2
          simp [pollPhase] at h
          obtain ⟨-, h'⟩ := h
          rw [← h']
          rfl
        · simp [pollPhase, h4, h2] at h

theorem failTick_cache_sub {st : Coord} {now : ℤ} {r2 : NetResult}
    {reqs : List Req} {e : String × (Value × ℤ)}
    (he : e ∈ (failTick st now r2 reqs).st.cache) : e ∈ st.cache := by
  unfold failTick at he
  split at he
  · split at he
    next snap st3 heq =>
      have hc := pollPhase_ok_cache heq
      have he2 : e ∈ st3.cache := he
      rw [hc] at he2
      exact mem_sweepCache he2
    next heq => exact he
  · exact he

/-- Claim C2 (amended): a scheduler tick — poll processing included — never
creates a confirmed-cache entry; every entry of the post-tick cache was
already present before the tick. -/
theorem tickNeverCreatesCacheEntries (st : Coord) (now : ℤ)
    (r1 r2 : NetResult) (e : String × (Value × ℤ))
    (he : e ∈ (tick st now r1 r2).st.cache) : e ∈ st.cache := by
  unfold tick at he
  split at he
  · split at he
    next heq => exact he
    next heq => exact failTick_cache_sub he
    next snap st' heq =>
      have hc := pollPhase_ok_cache heq
      split at he
      all_goals
        have he2 : e ∈ Coord.cache st' := he
        rw [hc] at he2
        exact mem_sweepCache he2
  · split at he
    next heq => exact he
    next heq => exact failTick_cache_sub he
    next snap st' heq =>
      have hc := pollPhase_ok_cache heq
      have he2 : e ∈ Coord.cache st' := he
      rw [hc] at he2
      exact mem_sweepCache he2

theorem tickNeverCreatesCacheEntries_wit :
    ("k", (Value.num 1, (0 : ℤ))) ∈
      ({ emptyCoord with cache := [("k", (Value.num 1, 0))] } : Coord).cache :=
  tickNeverCreatesCacheEntries
    { emptyCoord with cache := [("k", (Value.num 1, 0))] } 1000
    .transportError .transportError ("k", (Value.num 1, 0)) (by decide)

/-- Claim C9: processing a poll key of a zone whose identifier does not
have length 2 stores the value under a mangled name and queries the cache
under a mangled key. -/
theorem zonePrefixMisparse (zone p : String) (V : Value) (cache : Cache)
    (now : ℤ) (hz : zone.length ≠ 2) (hp : p ≠ "") :
    strDrop (zone ++ "_" ++ p) 3 ≠ p ∧
    zone ++ "_" ++ strDrop (zone ++ "_" ++ p) 3 ≠ zone ++ "_" ++ p ∧
    buildZoneData cache [(zone ++ "_" ++ p, V)] zone now =
      [(strDrop (zone ++ "_" ++ p) 3,
        resolveCached cache (zone ++ "_" ++ strDrop (zone ++ "_" ++ p) 3) V now)] ∧
    lookupA (buildZoneData cache [(zone ++ "_" ++ p, V)] zone now) p = none := by
  have hne := strDrop_key_ne zone p hz hp
  have hck := cacheKey_ne zone p hne
  have hsw := startsWith_key zone p
  refine ⟨hne, hck, ?_, ?_⟩
  · simp [buildZoneData, hsw, setA]
  · simp [buildZoneData, hsw, setA, lookupA, hne]

theorem pollPhase_ok_spec {r : NetResult} {zs : List String} {now : ℤ}
    {st : Coord} {snap : Snapshot} {st' : Coord}
    (h : pollPhase r zs now st = .ok snap st') :
    st'.activeZones = st.activeZones ∧ st'.lastDiscovery = st.lastDiscovery ∧
    st'.errorCount = 0 ∧ st'.updateInterval = REGULAR_UPDATE_INTERVAL ∧
    st'.lastCommands = st.lastCommands ∧ st'.data = st.data := by
  cases r with
  | transportError => simp [pollPhase] at h
  | http s body =>
      by_cases h4 : s = 401
      · simp [pollPhase, h4] at h
      · by_cases h2 : s = 200
        · subst h2
          simp [pollPhase] at h
          obtain ⟨-, h'⟩ := h
          rw [← h']
          exact ⟨rfl, rfl, rfl, rfl, rfl, rfl⟩
        · simp [pollPhase, h4, h2] at h

theorem pollPhase_401 (body : Params) (zs : List String) (now : ℤ)
    (st : Coord) : pollPhase (.http 401 body) zs now st = .authFailed := by
  simp [pollPhase]

theorem pollPhase_of_pollFails {r : NetResult} (h : pollFails r = true)
    (zs : List String) (now : ℤ) (st : Coord) :
    pollPhase r zs now st = .failed := by
  cases r with
  | transportError => rfl
  | http s body =>
      simp [pollFails] at h
      obtain ⟨h200, h401⟩ := h
      simp [pollPhase, h200, h401]

theorem pollPhase_of_recoverFails {r : NetResult} (h : recoverFails r = true)
    (zs : List String) (now : ℤ) (st : Coord) :
    pollPhase r zs now st = .failed ∨ pollPhase r zs now st = .authFailed := by
  cases r with
  | transportError => exact Or.inl rfl
  | http s body =>
      simp [recoverFails] at h
      by_cases h4 : s = 401
      · exact Or.inr (by simp [pollPhase, h4])
      · exact Or.inl (by simp [pollPhase, h4, h])

theorem failTick_reqs_head (st : Coord) (now : ℤ) (r2 : NetResult) (x : Req) :
    (failTick st now r2 [x]).reqs.head? = some x := by
  unfold failTick
  split
  · split <;> rfl
  · rfl

theorem failTick_events (st : Coord) (now : ℤ) (r2 : NetResult)
    (reqs : List Req) : (failTick st now r2 reqs).events = [] := by
  unfold failTick
  split
  · split <;> rfl
  · rfl

theorem failTick_activeZones (st : Coord) (now : ℤ) (r2 : NetResult)
    (reqs : List Req) :
    (failTick st now r2 reqs).st.activeZones = st.activeZones := by
  unfold failTick
  split
  · split
    next snap st3 heq => exact (pollPhase_ok_spec heq).1
    next => rfl
  · rfl

/-- Claim C7 (amended): phase selection uses a strict threshold: Discovery
runs when the elapsed time since the last Discovery Phase exceeds the
discovery interval; at elapsed time less than or exactly equal to it, a
Regular Phase runs (given a nonempty active-zone set). -/
theorem phaseSelectionThreshold (st : Coord) (now : ℤ) (r1 r2 : NetResult) :
    (DISCOVERY_INTERVAL < now - st.lastDiscovery →
      (tick st now r1 r2).reqs.head? = some Req.discovery) ∧
    (now - st.lastDiscovery ≤ DISCOVERY_INTERVAL → st.activeZones ≠ [] →
      (tick st now r1 r2).reqs.head? = some (Req.regular st.activeZones)) := by
  constructor
  · intro h
    unfold tick
    rw [if_pos h]
    split
    · rfl
    · exact failTick_reqs_head st now r2 Req.discovery
    · split <;> rfl
  · intro h hz
    unfold tick
    rw [if_neg (not_lt.mpr h)]
    simp only [if_neg hz]
    split
    · rfl
    · exact failTick_reqs_head st now r2 (Req.regular st.activeZones)
    · rfl

/-- Claim C7 counterexample: with the last discovery at time 0 and a tick
at exactly the discovery interval, the coordinator issues a Regular
request, not a Discovery request. -/
theorem phaseSelectionThreshold_cex :
    (tick { emptyCoord with activeZones := ["a1"] } DISCOVERY_INTERVAL
        (.http 200 []) .transportError).reqs = [Req.regular ["a1"]] ∧
    DISCOVERY_INTERVAL - ({ emptyCoord with activeZones := ["a1"] } : Coord).lastDiscovery
      = DISCOVERY_INTERVAL := by decide

theorem phaseSelectionThreshold_wit :
    (tick { emptyCoord with activeZones := ["a1"] } 400000
        .transportError .transportError).reqs.head? = some Req.discovery ∧
    (tick { emptyCoord with activeZones := ["a1"] } 100000
        .transportError .transportError).reqs.head? =
      some (Req.regular ["a1"]) :=
  ⟨(phaseSelectionThreshold { emptyCoord with activeZones := ["a1"] } 400000
      .transportError .transportError).1 (by decide),
   (phaseSelectionThreshold { emptyCoord with activeZones := ["a1"] } 100000
      .transportError .transportError).2 (by decide) (by decide)⟩

/-- Claim C5 (amended): when the active-zone set is empty and the
discovery timer is not due, the tick issues a Discovery-shaped request
instead of a Regular one, but it fires no zones-changed event and leaves
the active-zone set unchanged (empty), even when the discovery poll
reports zones. -/
theorem emptyZoneFallback (st : Coord) (now : ℤ) (r1 r2 : NetResult)
    (hempty : st.activeZones = [])
    (htimer : now - st.lastDiscovery ≤ DISCOVERY_INTERVAL) :
    (tick st now r1 r2).reqs.head? = some Req.discovery ∧
    (tick st now r1 r2).events = [] ∧
    (tick st now r1 r2).st.activeZones = [] := by
  unfold tick
  rw [if_neg (not_lt.mpr htimer)]
  simp only [hempty, if_pos rfl]
  split
  · exact ⟨rfl, rfl, hempty⟩
  · exact ⟨failTick_reqs_head st now r2 Req.discovery,
      failTick_events st now r2 [Req.discovery],
      (failTick_activeZones st now r2 [Req.discovery]).trans hempty⟩
  · next snap st' heq =>
      exact ⟨rfl, rfl, (pollPhase_ok_spec heq).1.trans hempty⟩

/-- Claim C5 counterexample: active zones empty, discovery timer not due,
and the fallback discovery poll reports zone a1 with data; the discovery
request is issued and succeeds, yet no zones-changed event fires and the
active-zone set stays empty. -/
theorem emptyZoneFallback_cex :
    (tick { emptyCoord with lastDiscovery := 100000 } 110000
        (.http 200 [("a1_temp", .num 20)]) .transportError) =
      ⟨.ok ⟨[("a1", [("temp", .num 20)])], [], ["a1"], 110000⟩,
       { emptyCoord with
           lastDiscovery := 100000
           data := some ⟨[("a1", [("temp", .num 20)])], [], ["a1"], 110000⟩ },
       [], [.discovery]⟩ := by decide

theorem emptyZoneFallback_wit :
    (tick { emptyCoord with lastDiscovery := 100000 } 110000
        .transportError .transportError).reqs.head? = some Req.discovery ∧
    (tick { emptyCoord with lastDiscovery := 100000 } 110000
        .transportError .transportError).events = [] ∧
    (tick { emptyCoord with lastDiscovery := 100000 } 110000
        .transportError .transportError).st.activeZones = [] :=
  emptyZoneFallback { emptyCoord with lastDiscovery := 100000 } 110000
    .transportError .transportError (by decide) (by decide)

theorem failTick_escalate (st : Coord) (now : ℤ) (r2 : NetResult)
    (reqs : List Req) (h2 : st.errorCount = 2) (hr : recoverFails r2 = true) :
    failTick st now r2 reqs =
      ⟨.updateFailed,
       { st with errorCount := st.errorCount + 1,
                 updateInterval := ERROR_RETRY_DELAY },
       [], reqs ++ [.discovery]⟩ := by
  unfold failTick
  rw [if_pos (show MAX_ERRORS ≤ st.errorCount + 1 by rw [h2]; decide)]
  split
  · next snap st3 heq =>
      rcases pollPhase_of_recoverFails hr DEFAULT_ZONES now
          { st with errorCount := st.errorCount + 1,
                    updateInterval := ERROR_RETRY_DELAY } with hh | hh <;>
        rw [hh] at heq <;> cases heq
  · rfl

theorem failTick_ok_resets (st : Coord) (now : ℤ) (r2 : NetResult)
    (reqs : List Req) (snap : Snapshot) :
    (failTick st now r2 reqs).outcome = .ok snap →
    (failTick st now r2 reqs).st.errorCount = 0 ∧
    (failTick st now r2 reqs).st.updateInterval = REGULAR_UPDATE_INTERVAL := by
  unfold failTick
  split
  · split
    · next snap2 st3 heq2 =>
        exact fun hok =>
          ⟨(pollPhase_ok_spec heq2).2.2.1, (pollPhase_ok_spec heq2).2.2.2.1⟩
    · exact fun hok => TickOutcome.noConfusion hok
  · exact fun hok => TickOutcome.noConfusion hok

theorem tick_ok_resets (st : Coord) (now : ℤ) (r1 r2 : NetResult)
    (snap : Snapshot) :
    (tick st now r1 r2).outcome = .ok snap →
    (tick st now r1 r2).st.errorCount = 0 ∧
    (tick st now r1 r2).st.updateInterval = REGULAR_UPDATE_INTERVAL := by
  unfold tick
  split
  · split
    · exact fun hok => TickOutcome.noConfusion hok
    · exact failTick_ok_resets st now r2 [Req.discovery] snap
    · next snap' st' heq =>
        split <;>
          exact fun hok =>
            ⟨(pollPhase_ok_spec heq).2.2.1, (pollPhase_ok_spec heq).2.2.2.1⟩
  · split
    · exact fun hok => TickOutcome.noConfusion hok
    · exact failTick_ok_resets st now r2 _ snap
    · next snap' st' heq =>
        exact fun hok =>
          ⟨(pollPhase_ok_spec heq).2.2.1, (pollPhase_ok_spec heq).2.2.2.1⟩

/-- Claim C6 (amended): on the tick of the third consecutive poll failure
the update interval becomes the error-retry delay, the failure counter
reaches 3, and a recovery Discovery Phase is attempted immediately within
that same tick (not forced on the next tick — the next tick's phase
follows the ordinary timer rule); on any successful tick the counter
resets to 0 and the interval reverts to the regular interval. -/
theorem failureEscalation (st : Coord) (now : ℤ) (r1 r2 : NetResult)
    (snap : Snapshot) :
    (st.errorCount = 2 → pollFails r1 = true → recoverFails r2 = true →
      (tick st now r1 r2).outcome = .updateFailed ∧
      (tick st now r1 r2).st.updateInterval = ERROR_RETRY_DELAY ∧
      (tick st now r1 r2).st.errorCount = 3 ∧
      (tick st now r1 r2).reqs.getLast? = some Req.discovery) ∧
    ((tick st now r1 r2).outcome = .ok snap →
      (tick st now r1 r2).st.errorCount = 0 ∧
      (tick st now r1 r2).st.updateInterval = REGULAR_UPDATE_INTERVAL) := by
  constructor
  · intro h2 hf hr
    have hp := pollPhase_of_pollFails hf
    unfold tick
    split
    · rw [hp DEFAULT_ZONES now st,
        failTick_escalate st now r2 [Req.discovery] h2 hr]
      refine ⟨rfl, rfl, ?_, rfl⟩
      show st.errorCount + 1 = 3
      omega
    · rw [hp _ now st, failTick_escalate st now r2 _ h2 hr]
      refine ⟨rfl, rfl, ?_, rfl⟩
      show st.errorCount + 1 = 3
      omega
  · exact tick_ok_resets st now r1 r2 snap

def escalatedCoord : Coord :=
  { emptyCoord with
      activeZones := ["a1"]
      lastDiscovery := 250000
      errorCount := 3
      updateInterval := ERROR_RETRY_DELAY }

/-- Claim C6 counterexample: in the state reached right after escalation
(3 consecutive failures, interval 60 s, last discovery 60 s ago), the next
tick issues a Regular request — it is not forced into Discovery Phase. -/
theorem failureEscalation_cex :
    (tick escalatedCoord 310000 (.http 200 [("a1_temp", .num 20)])
        .transportError).reqs = [Req.regular ["a1"]] ∧
    Req.regular ["a1"] ≠ Req.discovery := by decide

def twoFailuresCoord : Coord := { emptyCoord with errorCount := 2 }

def oneZoneCoord : Coord := { emptyCoord with activeZones := ["a1"] }

theorem failureEscalation_wit :
    ((tick twoFailuresCoord 1000 .transportError .transportError).outcome =
        .updateFailed ∧
      (tick twoFailuresCoord 1000 .transportError
          .transportError).st.updateInterval = ERROR_RETRY_DELAY ∧
      (tick twoFailuresCoord 1000 .transportError
          .transportError).st.errorCount = 3 ∧
      (tick twoFailuresCoord 1000 .transportError
          .transportError).reqs.getLast? = some Req.discovery) ∧
    ((tick oneZoneCoord 1000 (.http 200 []) .transportError).st.errorCount
        = 0 ∧
      (tick oneZoneCoord 1000 (.http 200 [])
          .transportError).st.updateInterval = REGULAR_UPDATE_INTERVAL) :=
  ⟨(failureEscalation twoFailuresCoord 1000 .transportError .transportError
      ⟨[], [], [], 0⟩).1 (by decide) (by decide) (by decide),
   (failureEscalation oneZoneCoord 1000 (.http 200 []) .transportError
      ⟨[], [], [], 1000⟩).2 (by decide)⟩

/-- Claim C4 (amended): a 401 on a poll call is distinguishable from a
generic transport failure (`ConfigEntryAuthFailed` versus `UpdateFailed`),
but a 401 on a command call is not: `send_command` returns exactly the
same result for a 401 as for a transport failure. -/
theorem authFailureDistinct (st : Coord) (now : ℤ) (body : Params)
    (r2 : NetResult) (cmd : String)
    (herr : st.errorCount + 1 < MAX_ERRORS) :
    (tick st now (.http 401 body) r2).outcome = .authFailed ∧
    (tick st now .transportError r2).outcome = .updateFailed ∧
    TickOutcome.authFailed ≠ TickOutcome.updateFailed ∧
    sendCommand st now cmd (.http 401 body) =
      sendCommand st now cmd .transportError := by
  refine ⟨?_, ?_, by decide, ?_⟩
  · unfold tick
    split
    · rw [pollPhase_401 body DEFAULT_ZONES now st]
    · rw [pollPhase_401 body _ now st]
  · unfold tick
    split
    · show (failTick st now r2 [Req.discovery]).outcome = .updateFailed
      unfold failTick
      rw [if_neg (not_le.mpr herr)]
    · show (failTick st now r2
        [if st.activeZones = [] then Req.discovery
         else Req.regular st.activeZones]).outcome = .updateFailed
      unfold failTick
      rw [if_neg (not_le.mpr herr)]
  · by_cases hdb : isDebounced st now cmd
    · simp [sendCommand, hdb]
    · simp [sendCommand, hdb]

/-- Claim C4 counterexample: for a command call, a 401 response and a
transport failure produce identical observable results — the caller
cannot distinguish them. -/
theorem authFailureDistinct_cex :
    sendCommand emptyCoord 0 "a1_power=1" (.http 401 []) =
      sendCommand emptyCoord 0 "a1_power=1" .transportError ∧
    (sendCommand emptyCoord 0 "a1_power=1" (.http 401 [])).ok = false := by
  decide

theorem authFailureDistinct_wit :
    (tick emptyCoord 0 (.http 401 []) .transportError).outcome =
      .authFailed ∧
    (tick emptyCoord 0 .transportError .transportError).outcome =
      .updateFailed ∧
    TickOutcome.authFailed ≠ TickOutcome.updateFailed ∧
    sendCommand emptyCoord 0 "c=1" (.http 401 []) =
      sendCommand emptyCoord 0 "c=1" .transportError :=
  authFailureDistinct emptyCoord 0 [] .transportError "c=1" (by decide)

/-- Claim C2 counterexample: `_delayed_refresh_zone_data` writes
poll-derived data into the confirmed cache: starting from an empty cache,
its 200-response handling creates an entry holding the polled value. -/
theorem cacheCreationFromPoll :
    emptyCoord.cache = [] ∧
    (delayedRefreshZoneData ["a1"] (.http 200 [("a1_target_temp", .num 215)])
        10000 emptyCoord).1.cache
      = [("a1_target_temp", (.num 215, 10000))] := by decide

theorem zonePrefixMisparse_wit :
    strDrop ("abc" ++ "_" ++ "target_temp") 3 ≠ "target_temp" ∧
    "abc" ++ "_" ++ strDrop ("abc" ++ "_" ++ "target_temp") 3 ≠
      "abc" ++ "_" ++ "target_temp" ∧
    buildZoneData [] [("abc" ++ "_" ++ "target_temp", Value.num 1)] "abc" 0 =
      [(strDrop ("abc" ++ "_" ++ "target_temp") 3,
        resolveCached []
          ("abc" ++ "_" ++ strDrop ("abc" ++ "_" ++ "target_temp") 3)
          (Value.num 1) 0)] ∧
    lookupA (buildZoneData [] [("abc" ++ "_" ++ "target_temp", Value.num 1)]
      "abc" 0) "target_temp" = none :=
  zonePrefixMisparse "abc" "target_temp" (Value.num 1) [] 0 (by decide)
    (by decide)

theorem trigger_preserves (st : Coord) (now : ℤ) :
    (triggerImmediateUpdate st now).1.cache = st.cache ∧
    (triggerImmediateUpdate st now).1.lastCommands = st.lastCommands ∧
    (triggerImmediateUpdate st now).1.activeZones = st.activeZones ∧
    (triggerImmediateUpdate st now).1.errorCount = st.errorCount := by
  unfold triggerImmediateUpdate
  split <;> exact ⟨rfl, rfl, rfl, rfl⟩

theorem sendCommand_debounced (st : Coord) (now : ℤ) (cmd : String)
    (resp : NetResult) (hdb : isDebounced st now cmd = true) :
    sendCommand st now cmd resp = ⟨true, st, false, false⟩ := by
  unfold sendCommand
  rw [hdb]
  rfl

theorem sendCommand_lastCommands (st : Coord) (now : ℤ) (cmd : String)
    (resp : NetResult) (hdb : isDebounced st now cmd = false) :
    (sendCommand st now cmd resp).st.lastCommands =
      setA st.lastCommands cmd now := by
  unfold sendCommand
  rw [hdb]
  cases resp with
  | transportError => rfl
  | http s body =>
      by_cases h4 : s = 401
      · simp [h4]
      · by_cases h2 : s = 200
        · subst h2
          cases hl : lookupA body "status" with
          | none => simp [hl]
          | some v =>
              by_cases hv : v ∈ okStatuses
              · simp [hl, hv, (trigger_preserves _ now).2.1]
              · simp [hl, hv]
        · simp [h4, h2]

theorem sendCommand_networkCalled (st : Coord) (now : ℤ) (cmd : String)
    (resp : NetResult) (hdb : isDebounced st now cmd = false) :
    (sendCommand st now cmd resp).networkCalled = true := by
  unfold sendCommand
  rw [hdb]
  cases resp with
  | transportError => rfl
  | http s body =>
      by_cases h4 : s = 401
      · simp [h4]
      · by_cases h2 : s = 200
        · subst h2
          cases hl : lookupA body "status" with
          | none => simp [hl]
          | some v => by_cases hv : v ∈ okStatuses <;> simp [hl, hv]
        · simp [h4, h2]

/-- Claim C3 (amended): a second send of the identical command string
within the debounce window makes no network call and always reports
success; hence the two invocations report the same success value exactly
when the first one succeeded (when the first send fails, the debounced
repeat still reports success). -/
theorem debounceIdempotence (st : Coord) (t0 t1 : ℤ) (cmd : String)
    (resp1 resp2 : NetResult)
    (hfresh : lookupA st.lastCommands cmd = none)
    (hwin : t1 - t0 < COMMAND_DEBOUNCE) :
    (sendCommand st t0 cmd resp1).networkCalled = true ∧
    (sendCommand (sendCommand st t0 cmd resp1).st t1 cmd resp2).networkCalled
      = false ∧
    (sendCommand (sendCommand st t0 cmd resp1).st t1 cmd resp2).ok = true ∧
    ((sendCommand st t0 cmd resp1).ok = true →
      (sendCommand st t0 cmd resp1).ok =
        (sendCommand (sendCommand st t0 cmd resp1).st t1 cmd resp2).ok) := by
  have hdb : isDebounced st t0 cmd = false := by
    simp [isDebounced, hfresh]
  have hlc := sendCommand_lastCommands st t0 cmd resp1 hdb
  have hdb2 : isDebounced (sendCommand st t0 cmd resp1).st t1 cmd = true := by
    simp [isDebounced, hlc, lookupA_setA_self, hwin]
  have h2 : sendCommand (sendCommand st t0 cmd resp1).st t1 cmd resp2 =
      ⟨true, (sendCommand st t0 cmd resp1).st, false, false⟩ :=
    sendCommand_debounced _ t1 cmd resp2 hdb2
  refine ⟨sendCommand_networkCalled st t0 cmd resp1 hdb, ?_, ?_, ?_⟩
  · rw [h2]
  · rw [h2]
  · intro hok
    rw [h2, hok]

/-- Claim C3 counterexample: the first send of a command fails (HTTP 500,
send_command returns False); an identical send 1 second later is
debounced, makes no network call, and returns True — the two invocations
do not report the same success value. -/
theorem debounceIdempotence_cex :
    (sendCommand emptyCoord 0 "a1_power=1" (.http 500 [])).ok = false ∧
    (sendCommand (sendCommand emptyCoord 0 "a1_power=1" (.http 500 [])).st
        1000 "a1_power=1" (.http 500 [])).ok = true ∧
    (sendCommand (sendCommand emptyCoord 0 "a1_power=1" (.http 500 [])).st
        1000 "a1_power=1" (.http 500 [])).networkCalled = false ∧
    (1000 : ℤ) - 0 < COMMAND_DEBOUNCE := by decide

theorem debounceIdempotence_wit :
    (sendCommand emptyCoord 0 "z=1" .transportError).networkCalled = true ∧
    (sendCommand (sendCommand emptyCoord 0 "z=1" .transportError).st 1000
        "z=1" .transportError).networkCalled = false ∧
    (sendCommand (sendCommand emptyCoord 0 "z=1" .transportError).st 1000
        "z=1" .transportError).ok = true ∧
    ((sendCommand emptyCoord 0 "z=1" .transportError).ok = true →
      (sendCommand emptyCoord 0 "z=1" .transportError).ok =
        (sendCommand (sendCommand emptyCoord 0 "z=1" .transportError).st 1000
            "z=1" .transportError).ok) :=
  debounceIdempotence emptyCoord 0 1000 "z=1" .transportError .transportError
    (by decide) (by decide)

/-- Claim C8: every failing `send_command` invocation — HTTP error
status, HTTP 401, a response whose status field is not ok, or a
transport error/timeout — returns False, notifies nobody, and leaves the
whole state unchanged except the debounce timestamp; in particular the
confirmed-value cache is unchanged.  (The embedding is total: the real
code's catch-all `except` clause means no exception reaches the caller.) -/
theorem commandFailureAtomicity (st : Coord) (now : ℤ) (cmd : String)
    (resp : NetResult) (hdb : isDebounced st now cmd = false)
    (hf : cmdRespOk resp = false) :
    sendCommand st now cmd resp =
      ⟨false, { st with lastCommands := setA st.lastCommands cmd now },
       true, false⟩ := by
  unfold sendCommand
  rw [hdb]
  cases resp with
  | transportError => rfl
  | http s body =>
      by_cases h4 : s = 401
      · simp [h4]
      · by_cases h2 : s = 200
        · subst h2
          cases hl : lookupA body "status" with
          | none => simp [hl]
          | some v =>
              simp only [cmdRespOk, hl] at hf
              have hfm : v ∉ okStatuses := by simpa using hf
              simp [hl, hfm]
        · simp [h4, h2]

theorem commandFailureAtomicity_wit :
    sendCommand emptyCoord 0 "a1_power=1"
        (.http 200 [("status", Value.str "error")]) =
      ⟨false,
       { emptyCoord with
           lastCommands := setA emptyCoord.lastCommands "a1_power=1" 0 },
       true, false⟩ :=
  commandFailureAtomicity emptyCoord 0 "a1_power=1"
    (.http 200 [("status", Value.str "error")]) (by decide) (by decide)

theorem sendCommand_ok_shape (st : Coord) (now : ℤ) (cmd K : String)
    (sv V : Value) (hdb : isDebounced st now cmd = false)
    (hks : K ≠ "status") (hsv : sv ∈ okStatuses) :
    sendCommand st now cmd (.http 200 [("status", sv), (K, V)]) =
      ⟨true,
       (triggerImmediateUpdate
         { st with lastCommands := setA st.lastCommands cmd now,
                   cache := setA st.cache K (V, now) } now).1,
       true,
       (triggerImmediateUpdate
         { st with lastCommands := setA st.lastCommands cmd now,
                   cache := setA st.cache K (V, now) } now).2⟩ := by
  unfold sendCommand
  rw [hdb]
  have hl : lookupA [("status", sv), (K, V)] "status" = some sv := rfl
  have hac : applyConfirmedValues [("status", sv), (K, V)] now st.cache =
      setA st.cache K (V, now) := by
    simp [applyConfirmedValues, hks]
  simp [hl, hsv, hac]

theorem triggerImmediateUpdate_none (st : Coord) (now : ℤ)
    (h : st.data = none) : triggerImmediateUpdate st now = (st, false) := by
  unfold triggerImmediateUpdate
  rw [h]

theorem trigger_param_fst (c : Cache) (now : ℤ) (z : String)
    (pv : String × Value) :
    (match lookupA c (z ++ "_" ++ pv.1) with
     | some vt => if now - vt.2 < CACHE_TTL then (pv.1, vt.1) else pv
     | none => pv).1 = pv.1 := by
  cases lookupA c (z ++ "_" ++ pv.1) with
  | none => rfl
  | some vt =>
      dsimp only
      split <;> rfl

theorem trigger_common_fst (c : Cache) (now : ℤ) (kv : String × Value) :
    (match lookupA c kv.1 with
     | some vt => if now - vt.2 < CACHE_TTL then (kv.1, vt.1) else kv
     | none => kv).1 = kv.1 := by
  cases lookupA c kv.1 with
  | none => rfl
  | some vt =>
      dsimp only
      split <;> rfl

theorem triggerImmediateUpdate_some (st : Coord) (now : ℤ) (snap : Snapshot)
    (h : st.data = some snap) :
    ∃ snap2, (triggerImmediateUpdate st now).1.data = some snap2 ∧
      snap2.zones = snap.zones.map (fun zzd =>
        (zzd.1, zzd.2.map (fun pv =>
          match lookupA st.cache (zzd.1 ++ "_" ++ pv.1) with
          | some vt => if now - vt.2 < CACHE_TTL then (pv.1, vt.1) else pv
          | none => pv))) ∧
      snap2.common = snap.common.map (fun kv =>
        match lookupA st.cache kv.1 with
        | some vt => if now - vt.2 < CACHE_TTL then (kv.1, vt.1) else kv
        | none => kv) := by
  unfold triggerImmediateUpdate
  rw [h]
  exact ⟨_, rfl, rfl, rfl⟩

/-- Claim C10: a successful command while the coordinator holds no poll
snapshot still returns True and writes the confirmed cache, but the
immediate refresh changes no facade-visible state (`data` stays `none`)
and notifies no listeners; and when a snapshot exists, the refresh only
overwrites parameters already present — the zone-key set, each zone's
parameter-name set and the common-key set are unchanged — so a confirmed
value for a never-polled key is not visible until a later poll. -/
theorem noVisibilityBeforeFirstPoll (st : Coord) (now : ℤ) (cmd K : String)
    (sv V : Value) (snap : Snapshot)
    (hdb : isDebounced st now cmd = false)
    (hks : K ≠ "status")
    (hsv : sv ∈ okStatuses) :
    (st.data = none →
      (sendCommand st now cmd (.http 200 [("status", sv), (K, V)])).ok
        = true ∧
      lookupA (sendCommand st now cmd
        (.http 200 [("status", sv), (K, V)])).st.cache K = some (V, now) ∧
      (sendCommand st now cmd (.http 200 [("status", sv), (K, V)])).st.data
        = none ∧
      (sendCommand st now cmd (.http 200 [("status", sv), (K, V)])).notified
        = false) ∧
    (st.data = some snap →
      ∃ snap2,
        (sendCommand st now cmd
          (.http 200 [("status", sv), (K, V)])).st.data = some snap2 ∧
        snap2.zones.map Prod.fst = snap.zones.map Prod.fst ∧
        snap2.common.map Prod.fst = snap.common.map Prod.fst ∧
        ∀ z zd, (z, zd) ∈ snap.zones →
          ∃ zd2, (z, zd2) ∈ snap2.zones ∧
            zd2.map Prod.fst = zd.map Prod.fst) := by
  have hshape := sendCommand_ok_shape st now cmd K sv V hdb hks hsv
  constructor
  · intro hnone
    have hn2 : ({ st with
        lastCommands := setA st.lastCommands cmd now
        cache := setA st.cache K (V, now) } : Coord).data = none := hnone
    rw [hshape, triggerImmediateUpdate_none _ now hn2]
    exact ⟨rfl, lookupA_setA_self _ _ _, hnone, rfl⟩
  · intro hsome
    have hs2 : ({ st with
        lastCommands := setA st.lastCommands cmd now
        cache := setA st.cache K (V, now) } : Coord).data = some snap := hsome
    obtain ⟨snap2, hd, hzs, hcs⟩ :=
      triggerImmediateUpdate_some _ now snap hs2
    refine ⟨snap2, ?_, ?_, ?_, ?_⟩
    · rw [hshape]
      exact hd
    · rw [hzs, List.map_map]
      rfl
    · rw [hcs, List.map_map]
      exact List.map_congr_left (fun kv _ => trigger_common_fst _ now kv)
    · intro z zd hm
      refine ⟨List.map (fun pv =>
          match lookupA (setA st.cache K (V, now)) (z ++ "_" ++ pv.1) with
          | some vt => if now - vt.2 < CACHE_TTL then (pv.1, vt.1) else pv
          | none => pv) zd, ?_, ?_⟩
      · rw [hzs]
        exact List.mem_map_of_mem _ hm
      · rw [List.map_map]
        exact List.map_congr_left (fun pv _ =>
          trigger_param_fst (setA st.cache K (V, now)) now z pv)

def snapW : Snapshot :=
  ⟨[("a1", [("temp", Value.num 20)])], [("summermode", Value.num 0)],
   ["a1"], 0⟩

def coordW : Coord := { emptyCoord with data := some snapW }

theorem noVisibilityBeforeFirstPoll_wit :
    ((sendCommand emptyCoord 5000 "a1_target_temp=21.5"
        (.http 200 [("status", Value.str "ok"),
          ("a1_target_temp", Value.num 215)])).ok = true ∧
      lookupA (sendCommand emptyCoord 5000 "a1_target_temp=21.5"
        (.http 200 [("status", Value.str "ok"),
          ("a1_target_temp", Value.num 215)])).st.cache "a1_target_temp"
        = some (Value.num 215, 5000) ∧
      (sendCommand emptyCoord 5000 "a1_target_temp=21.5"
        (.http 200 [("status", Value.str "ok"),
          ("a1_target_temp", Value.num 215)])).st.data = none ∧
      (sendCommand emptyCoord 5000 "a1_target_temp=21.5"
        (.http 200 [("status", Value.str "ok"),
          ("a1_target_temp", Value.num 215)])).notified = false) ∧
    (∃ snap2,
      (sendCommand coordW 5000 "a1_target_temp=21.5"
        (.http 200 [("status", Value.str "ok"),
          ("a1_target_temp", Value.num 215)])).st.data = some snap2 ∧
      snap2.zones.map Prod.fst = snapW.zones.map Prod.fst ∧
      snap2.common.map Prod.fst = snapW.common.map Prod.fst ∧
      ∀ z zd, (z, zd) ∈ snapW.zones →
        ∃ zd2, (z, zd2) ∈ snap2.zones ∧
          zd2.map Prod.fst = zd.map Prod.fst) :=
  ⟨(noVisibilityBeforeFirstPoll emptyCoord 5000 "a1_target_temp=21.5"
      "a1_target_temp" (Value.str "ok") (Value.num 215) snapW (by decide)
      (by decide) (by decide)).1 rfl,
   (noVisibilityBeforeFirstPoll coordW 5000 "a1_target_temp=21.5"
      "a1_target_temp" (Value.str "ok") (Value.num 215) snapW (by decide)
      (by decide) (by decide)).2 rfl⟩

/-- The facade read of a zone parameter right after a poll is processed:
the framework stores the returned snapshot in `self.data` and
`get_zone_data` reads it. -/
def readAfterPoll (raw : Params) (zones : List String) (now : ℤ)
    (st : Coord) (zone p : String) : Option Value :=
  lookupA (getZoneData
    { (processDataWithCache raw zones now st).2 with
      data := some (processDataWithCache raw zones now st).1 } zone) p

/-- The facade read of a common parameter right after a poll is
processed. -/
def readCommonAfterPoll (raw : Params) (zones : List String) (now : ℤ)
    (st : Coord) (k : String) : Option Value :=
  lookupA (getCommonData
    { (processDataWithCache raw zones now st).2 with
      data := some (processDataWithCache raw zones now st).1 }) k

theorem processDataWithCache_single (zone p : String) (hz : zone.length = 2)
    (V Vp : Value) (t0 t1 : ℤ) (st : Coord)
    (hc : st.cache = [(zone ++ "_" ++ p, (V, t0))]) :
    (processDataWithCache [(zone ++ "_" ++ p, Vp)] [zone] t1 st).1.zones =
      [(zone, [(p, if t1 - t0 < CACHE_TTL then V else Vp)])] := by
  by_cases hle : t1 - t0 ≤ CACHE_TTL
  · have hsw : sweepCache st.cache t1 = [(zone ++ "_" ++ p, (V, t0))] := by
      rw [hc]; simp [sweepCache]; omega
    simp [processDataWithCache, hsw, buildZoneData, startsWith_key,
      strDrop_key zone p hz, resolveCached, lookupA, setA]
  · have hsw : sweepCache st.cache t1 = [] := by
      rw [hc]; simp [sweepCache]; omega
    have hnlt : ¬(t1 - t0 < CACHE_TTL) := fun h => hle (le_of_lt h)
    simp [processDataWithCache, hsw, buildZoneData, startsWith_key,
      strDrop_key zone p hz, resolveCached, lookupA, setA, hnlt]

theorem commonKeys_ne_status (K : String) (hK : K ∈ commonKeys) :
    K ≠ "status" := by
  fin_cases hK <;> decide

theorem buildCommon_single (K : String) (hK : K ∈ commonKeys)
    (V Vp : Value) (t0 t1 : ℤ) :
    lookupA (buildCommon (sweepCache [(K, (V, t0))] t1) [(K, Vp)] t1) K =
      some (if t1 - t0 < CACHE_TTL then V else Vp) := by
  by_cases hle : t1 - t0 ≤ CACHE_TTL
  · have hsw : sweepCache [(K, (V, t0))] t1 = [(K, (V, t0))] := by
      simp [sweepCache]; omega
    rw [hsw]
    fin_cases hK <;>
      simp [buildCommon, commonKeys, lookupA, resolveCached, setA]
  · have hsw : sweepCache [(K, (V, t0))] t1 = [] := by
      simp [sweepCache]; omega
    have hnlt : ¬(t1 - t0 < CACHE_TTL) := fun h => hle (le_of_lt h)
    rw [hsw]
    fin_cases hK <;>
      simp [buildCommon, commonKeys, lookupA, resolveCached, setA, hnlt]

theorem sendCommand_ok_cache (st : Coord) (now : ℤ) (cmd K : String)
    (sv V : Value) (hdb : isDebounced st now cmd = false)
    (hks : K ≠ "status") (hsv : sv ∈ okStatuses) :
    (sendCommand st now cmd (.http 200 [("status", sv), (K, V)])).st.cache =
      setA st.cache K (V, now) := by
  rw [sendCommand_ok_shape st now cmd K sv V hdb hks hsv]
  exact (trigger_preserves _ now).1

/-- Claim C1: end-to-end cache precedence.  A command at time t0 confirms
a zone parameter (and, in the second half, a common parameter) with value
V; a poll processed at time t1 reports a different value Vp for the same
key.  The facade read right after the poll returns the confirmed V
whenever t1 - t0 < TTL, and the polled Vp whenever t1 - t0 ≥ TTL. -/
theorem cachePrecedence (st : Coord) (t0 t1 : ℤ) (cmd zone p K : String)
    (V Vp : Value)
    (hz : zone.length = 2)
    (hKc : K ∈ commonKeys)
    (hc : st.cache = [])
    (hdb : isDebounced st t0 cmd = false)
    (_hne : Vp ≠ V) :
    (t1 - t0 < CACHE_TTL →
      readAfterPoll [(zone ++ "_" ++ p, Vp)] [zone] t1
        (sendCommand st t0 cmd (.http 200
          [("status", Value.str "ok"), (zone ++ "_" ++ p, V)])).st zone p
        = some V) ∧
    (CACHE_TTL ≤ t1 - t0 →
      readAfterPoll [(zone ++ "_" ++ p, Vp)] [zone] t1
        (sendCommand st t0 cmd (.http 200
          [("status", Value.str "ok"), (zone ++ "_" ++ p, V)])).st zone p
        = some Vp) ∧
    (t1 - t0 < CACHE_TTL →
      readCommonAfterPoll [(K, Vp)] [zone] t1
        (sendCommand st t0 cmd (.http 200
          [("status", Value.str "ok"), (K, V)])).st K = some V) ∧
    (CACHE_TTL ≤ t1 - t0 →
      readCommonAfterPoll [(K, Vp)] [zone] t1
        (sendCommand st t0 cmd (.http 200
          [("status", Value.str "ok"), (K, V)])).st K = some Vp) := by
  have hsv : Value.str "ok" ∈ okStatuses := by decide
  have hksz := key_ne_status zone p hz
  have hksK := commonKeys_ne_status K hKc
  have hcz : (sendCommand st t0 cmd (.http 200
      [("status", Value.str "ok"), (zone ++ "_" ++ p, V)])).st.cache
      = [(zone ++ "_" ++ p, (V, t0))] := by
    rw [sendCommand_ok_cache st t0 cmd _ _ V hdb hksz hsv, hc]
    rfl
  have hcK : (sendCommand st t0 cmd (.http 200
      [("status", Value.str "ok"), (K, V)])).st.cache
      = [(K, (V, t0))] := by
    rw [sendCommand_ok_cache st t0 cmd _ _ V hdb hksK hsv, hc]
    rfl
  refine ⟨?_, ?_, ?_, ?_⟩
  · intro hlt
    have hone := processDataWithCache_single zone p hz V Vp t0 t1 _ hcz
    simp [readAfterPoll, getZoneData, hone, lookupA, hlt]
  · intro hge
    have hnlt : ¬(t1 - t0 < CACHE_TTL) := not_lt.mpr hge
    have hone := processDataWithCache_single zone p hz V Vp t0 t1 _ hcz
    simp [readAfterPoll, getZoneData, hone, lookupA, hnlt]
  · intro hlt
    have hone := buildCommon_single K hKc V Vp t0 t1
    simp [readCommonAfterPoll, getCommonData, processDataWithCache, hcK,
      hone, hlt]
  · intro hge
    have hnlt : ¬(t1 - t0 < CACHE_TTL) := not_lt.mpr hge
    have hone := buildCommon_single K hKc V Vp t0 t1
    simp [readCommonAfterPoll, getCommonData, processDataWithCache, hcK,
      hone, hnlt]

theorem cachePrecedence_wit :
    readAfterPoll [("a1" ++ "_" ++ "target_temp", Value.num 200)] ["a1"] 1000
      (sendCommand emptyCoord 0 "a1_target_temp=21.5" (.http 200
        [("status", Value.str "ok"),
         ("a1" ++ "_" ++ "target_temp", Value.num 215)])).st "a1"
      "target_temp" = some (Value.num 215) ∧
    readAfterPoll [("a1" ++ "_" ++ "target_temp", Value.num 200)] ["a1"] 2000
      (sendCommand emptyCoord 0 "a1_target_temp=21.5" (.http 200
        [("status", Value.str "ok"),
         ("a1" ++ "_" ++ "target_temp", Value.num 215)])).st "a1"
      "target_temp" = some (Value.num 200) ∧
    readCommonAfterPoll [("summermode", Value.num 200)] ["a1"] 1000
      (sendCommand emptyCoord 0 "a1_target_temp=21.5" (.http 200
        [("status", Value.str "ok"),
         ("summermode", Value.num 215)])).st "summermode"
      = some (Value.num 215) ∧
    readCommonAfterPoll [("summermode", Value.num 200)] ["a1"] 2000
      (sendCommand emptyCoord 0 "a1_target_temp=21.5" (.http 200
        [("status", Value.str "ok"),
         ("summermode", Value.num 215)])).st "summermode"
      = some (Value.num 200) :=
  ⟨(cachePrecedence emptyCoord 0 1000 "a1_target_temp=21.5" "a1"
      "target_temp" "summermode" (Value.num 215) (Value.num 200) (by decide)
      (by decide) rfl (by decide) (by decide)).1 (by decide),
   (cachePrecedence emptyCoord 0 2000 "a1_target_temp=21.5" "a1"
      "target_temp" "summermode" (Value.num 215) (Value.num 200) (by decide)
      (by decide) rfl (by decide) (by decide)).2.1 (by decide),
   (cachePrecedence emptyCoord 0 1000 "a1_target_temp=21.5" "a1"
      "target_temp" "summermode" (Value.num 215) (Value.num 200) (by decide)
      (by decide) rfl (by decide) (by decide)).2.2.1 (by decide),
   (cachePrecedence emptyCoord 0 2000 "a1_target_temp=21.5" "a1"
      "target_temp" "summermode" (Value.num 215) (Value.num 200) (by decide)
      (by decide) rfl (by decide) (by decide)).2.2.2 (by decide)⟩

end Iohouse
